import Mathlib

/-!
Shallow embedding of the two plotting utilities of the `ctdax/analysis`
repository (`src/ratio.py` and `src/2DHistogram.py`) and proofs of the
claims about them.

Histogram bin contents are embedded as rational numbers; ROOT bin index
`i` (1-based, under/overflow bins not modelled) corresponds to list index
`i - 1`.
-/

/-- A one-dimensional ROOT histogram (`ROOT.TH1`) as the scripts use it:
a name, a title, an ordered sequence of bin contents, the numeric x-axis
range and optional per-bin x-axis labels (empty string = no label). -/
structure TH1 where
  name : String
  title : String
  bins : List ℚ
  xmin : ℚ
  xmax : ℚ
  xbinLabels : List String
  xtitle : String
deriving Repr, DecidableEq

instance : Inhabited TH1 := ⟨⟨"", "", [], 0, 0, [], ""⟩⟩

/-- Model of `TH1.GetNbinsX`. -/
def TH1.GetNbinsX (h : TH1) : ℕ := h.bins.length

/-- Model of `TH1.GetBinContent i` for ROOT bin index `i` (1-based). Bin 0 is the
underflow bin and out-of-range bins are overflow; their contents are not
modelled and read as 0. -/
def TH1.GetBinContent (h : TH1) (i : ℕ) : ℚ :=
  if i = 0 then 0 else h.bins.getD (i - 1) 0

/-- Model of `TAxis.GetBinLabel i` of the x axis, 1-based; "" when unset. -/
def TH1.GetXBinLabel (h : TH1) (i : ℕ) : String :=
  if i = 0 then "" else h.xbinLabels.getD (i - 1) ""

/-- Model of `TH1.Scale c`: multiply every bin content by `c`. -/
def TH1.Scale (h : TH1) (c : ℚ) : TH1 := { h with bins := h.bins.map (fun b => c * b) }

/-- Model of `TH1.Clone newName`: an independent copy carrying a new name. -/
def TH1.Clone (h : TH1) (newName : String) : TH1 := { h with name := newName }

/-- Model of `TH1.SetTitle`. -/
def TH1.SetTitle (h : TH1) (t : String) : TH1 := { h with title := t }

/-- Models `ROOT.TH1.Divide(h2)` (plotting-library primitive): when the two
histograms have the same number of bins, each bin becomes
`numerator / denominator`, and 0 where the denominator bin is 0; on a
binning mismatch ROOT reports an error and leaves the histogram unchanged. -/
def TH1.Divide (num den : TH1) : TH1 :=
  if num.bins.length = den.bins.length then
    { num with bins := List.zipWith (fun a b => if b = 0 then 0 else a / b) num.bins den.bins }
  else num

/-- Model of `src/ratio.py` lines 102-107 (inside `load_histogram`): read bin 1 as
the event count; when it is positive scale the whole histogram by its
inverse, otherwise leave the histogram unchanged and print a warning.
Returns the histogram together with the warning messages printed (the
branch contains no raising operation). -/
def normalizeByFirstBin (h : TH1) (full_hist_name filename : String) : TH1 × List String :=
  let eventCount := h.GetBinContent 1
  if eventCount > 0 then
    (h.Scale (1 / eventCount), [])
  else
    (h, [s!"Warning: Histogram '{full_hist_name}' in {filename} has zero events, cannot normalize."])

/-- Model of `HistogramRatioPlotter.construct_filename` (src/ratio.py). -/
def ratio_construct_filename (gluino_mass neutralino_mass : ℤ) (ctau decay_type era : String) : String :=
  "gluino" ++ toString gluino_mass ++ "_chi10" ++ toString neutralino_mass ++ "_"
    ++ ctau ++ "_" ++ decay_type ++ "_" ++ era ++ ".root"

/-- Model of `Histogram2DPlotter.construct_filename` (src/2DHistogram.py). -/
def hist2d_construct_filename (gluino_mass neutralino_mass : ℤ) (ctau decay_type era : String) : String :=
  "gluino" ++ toString gluino_mass ++ "_chi10" ++ toString neutralino_mass ++ "_"
    ++ ctau ++ "_" ++ decay_type ++ "_" ++ era ++ ".root"

/-- The default base directory both plotter classes are constructed with. -/
def base_dir : String := "/eos/user/c/cthompso/analysis/CMSSW_15_0_16/src"

/-- Model of `self.ntuples_dir = self.base_dir / "ntuples"`. -/
def ntuples_dir : String := base_dir ++ "/ntuples"

/-- Model of `self.plots_dir = self.base_dir / "plots"`. -/
def plots_dir : String := base_dir ++ "/plots"

/-- A ROOT file as the loaders see it: possibly unreadable (`IsZombie`),
otherwise a set of named objects keyed by internal directory path. -/
structure ROOTFile where
  zombie : Bool
  objects : List (String × TH1)
deriving Repr, DecidableEq

/-- Model of `TFile.Get path`: the object stored at the internal path, if any. -/
def ROOTFile.Get (f : ROOTFile) (path : String) : Option TH1 :=
  (f.objects.find? (fun p => p.1 == path)).map (fun p => p.2)

/-- The file-system state a run observes: files keyed by absolute path. A
present file may still be unreadable (its `zombie` flag). -/
structure FileSystem where
  files : List (String × ROOTFile)
deriving Repr, DecidableEq

def FileSystem.lookup (fs : FileSystem) (path : String) : Option ROOTFile :=
  (fs.files.find? (fun p => p.1 == path)).map (fun p => p.2)

/-- Model of `HistogramRatioPlotter.load_histogram` (src/ratio.py lines 65-111):
locate the file under `ntuples_dir`, fail with a console message if it is
missing or unreadable; look the histogram up first under
`HSCPMiniAODAnalyzer/`, then under `HSCPFullAODAnalyzer/`; on success
clone it (detaching it from the file) and normalize it by its first bin.
Returns the histogram (or `none`) together with the console messages
printed. The Python error messages wrap names in single quotes, elided
here. -/
def ratio_load_histogram (fs : FileSystem) (filename hist_name : String) :
    Option TH1 × List String :=
  let filepath := ntuples_dir ++ "/" ++ filename
  match fs.lookup filepath with
  | none => (none, [s!"Error: File {filepath} not found!"])
  | some root_file =>
    if root_file.zombie then
      (none, [s!"Error: Cannot open file {filepath}"])
    else
      let fullMini := "HSCPMiniAODAnalyzer/" ++ hist_name
      let fullAOD := "HSCPFullAODAnalyzer/" ++ hist_name
      let cloneName := hist_name ++ "_" ++ filename.replace ".root" ""
      match root_file.Get fullMini with
      | some hist =>
        let r := normalizeByFirstBin (hist.Clone cloneName) fullMini filename
        (some r.1, r.2)
      | none =>
        match root_file.Get fullAOD with
        | some hist =>
          let r := normalizeByFirstBin (hist.Clone cloneName) fullAOD filename
          (some r.1, r.2)
        | none => (none, [s!"Error: Histogram {fullAOD} not found in {filename}"])

/-- Model of `Histogram2DPlotter.load_histogram` (src/2DHistogram.py lines 47-82):
same file location step, but the histogram is looked up only under
`HSCPMiniAODAnalyzer/`, and the clone is returned without any
normalization. -/
def hist2d_load_histogram (fs : FileSystem) (filename hist_name : String) :
    Option TH1 × List String :=
  let filepath := ntuples_dir ++ "/" ++ filename
  match fs.lookup filepath with
  | none => (none, [s!"Error: File {filepath} not found!"])
  | some root_file =>
    if root_file.zombie then
      (none, [s!"Error: Cannot open file {filepath}"])
    else
      let fullMini := "HSCPMiniAODAnalyzer/" ++ hist_name
      let cloneName := hist_name ++ "_" ++ filename.replace ".root" ""
      match root_file.Get fullMini with
      | some hist => (some (hist.Clone cloneName), [])
      | none => (none, [s!"Error: Histogram {fullMini} not found in {filename}"])

/-- Model of `HistogramRatioPlotter.create_ratio_plot` (src/ratio.py lines 113-144):
`None` if either input is missing; otherwise clone the numerator, set the
title and divide by the denominator (styling calls do not change bin
contents and are not modelled). -/
def create_ratio_plot (hist1 hist2 : Option TH1) (title : String) : Option TH1 :=
  match hist1, hist2 with
  | some h1, some h2 =>
    some (((h1.Clone ("ratio_" ++ h1.name ++ "_" ++ h2.name)).SetTitle title).Divide h2)
  | _, _ => none

/-- A two-dimensional ROOT histogram (`ROOT.TH2F`). Cell contents and bin
labels are total functions of the 1-based bin indices; a freshly created
`TH2F` has every cell 0 and every label empty. -/
structure TH2 where
  name : String
  title : String
  nX : ℕ
  xmin : ℚ
  xmax : ℚ
  nY : ℕ
  ymin : ℚ
  ymax : ℚ
  content : ℕ → ℕ → ℚ
  xbinLabel : ℕ → String
  ybinLabel : ℕ → String
  xtitle : String
  ytitle : String
  ztitle : String

instance : Inhabited TH2 :=
  ⟨⟨"", "", 0, 0, 0, 0, 0, 0, fun _ _ => 0, fun _ => "", fun _ => "", "", "", ""⟩⟩

/-- Model of `hist_2d.SetBinContent(x, y, v)` on the cell-content table. -/
def setCell (f : ℕ → ℕ → ℚ) (x y : ℕ) (v : ℚ) : ℕ → ℕ → ℚ :=
  fun a b => if a = x ∧ b = y then v else f a b

/-- Inner fill loop of `create_2d_histogram`:
`for x_bin in range(1, n_x_bins + 1): SetBinContent(x_bin, y, hist.GetBinContent(x_bin))`;
`x` is the next column to fill and `n` the number of columns left. -/
def fillRowFrom (f : ℕ → ℕ → ℚ) (h : TH1) (y x n : ℕ) : ℕ → ℕ → ℚ :=
  match n with
  | 0 => f
  | Nat.succ m => fillRowFrom (setCell f x y (h.GetBinContent x)) h y (x + 1) m

/-- Outer fill loop of `create_2d_histogram`:
`for ctau_idx, hist in enumerate(histograms)`, filling row `ctau_idx + 1`;
`y` is the row of the head histogram. (The source also guards
`if not hist: continue`; the lists passed in contain only successfully
loaded histograms, for which the guard never fires.) -/
def fillRows (f : ℕ → ℕ → ℚ) (hs : List TH1) (y nx : ℕ) : ℕ → ℕ → ℚ :=
  match hs with
  | [] => f
  | h :: t => fillRows (fillRowFrom f h y 1 nx) t (y + 1) nx

/-- Model of `Histogram2DPlotter.create_2d_histogram` (src/2DHistogram.py lines
84-138): `None` on an empty input list; otherwise a `TH2F` with the x-axis
dimensions of the first histogram, one y bin per input histogram, x-axis
bin labels copied from the first histogram where nonempty (starting from
all-empty labels this equals copying directly), y-axis bin labels
`SetBinLabel(i + 1, ctau_labels[i])`, and every cell `(x_bin, ctau_idx + 1)`
set to histogram `ctau_idx`'s bin `x_bin`. -/
def create_2d_histogram (histograms : List TH1) (ctau_labels : List String)
    (hist_name : String) : Option TH2 :=
  match histograms with
  | [] => none
  | first_hist :: _ =>
    let n_x_bins := first_hist.GetNbinsX
    let n_ctau := histograms.length
    some
      { name := "2D_" ++ hist_name
        title := "2D " ++ hist_name
        nX := n_x_bins, xmin := first_hist.xmin, xmax := first_hist.xmax
        nY := n_ctau, ymin := 0, ymax := (n_ctau : ℚ)
        content := fillRows (fun _ _ => 0) histograms 1 n_x_bins
        xbinLabel := fun j => if 1 ≤ j ∧ j ≤ n_x_bins then first_hist.GetXBinLabel j else ""
        ybinLabel := fun k =>
          if 1 ≤ k ∧ k ≤ ctau_labels.length then ctau_labels.getD (k - 1) "" else ""
        xtitle := first_hist.xtitle
        ytitle := "ctau [mm] (Decay Type)"
        ztitle := "Counts" }

/-- Model of `HistogramRatioPlotter.format_ctau_label` (src/ratio.py lines 36-48). -/
def format_ctau_label (ctau decay_type : String) : String :=
  let ctau_display :=
    if ctau == "10000mm" then "10k"
    else if ctau == "1000mm" then "1k"
    else (ctau.replace "p" ".").replace "mm" ""
  let decay_label := if decay_type == "lightDecay" then "(L)" else "(H)"
  "c\\tau = " ++ ctau_display ++ " mm " ++ decay_label

/-- Label generation inside the grid builder's loading loop
(src/2DHistogram.py lines 250-264): one-letter decay code, abbreviated
ctau value, formatted as `"{ctau_display} ({decay_label})"`. -/
def hist2d_ctau_label (ctau decay_type : String) : String :=
  let decay_label := if decay_type == "lightDecay" then "L" else "H"
  let ctau_display :=
    if ctau == "1000mm" then "1k"
    else if ctau == "10000mm" then "10k"
    else (ctau.replace "mm" "").replace "p" "."
  ctau_display ++ " (" ++ decay_label ++ ")"

/-- Split a character list at every occurrence of the separator
character; models Python `str.split(sep)` for a one-character separator
(so the empty string yields `[[]]`, i.e. `[""]`). -/
def splitOnChar (sep : Char) : List Char → List (List Char)
  | [] => [[]]
  | c :: rest =>
    let r := splitOnChar sep rest
    if c = sep then [] :: r
    else
      match r with
      | [] => [[c]]
      | hd :: tl => (c :: hd) :: tl

/-- Models Python `str.split(sep)` for a one-character separator. -/
def pySplit (s : String) (sep : Char) : List String :=
  (splitOnChar sep s.toList).map (fun cs => String.mk cs)

/-- Models Python `str.strip()`: remove leading and trailing whitespace. -/
def pyStrip (s : String) : String :=
  String.mk (((s.toList.dropWhile Char.isWhitespace).reverse.dropWhile Char.isWhitespace).reverse)

/-- Models Python `str.lower()` on the ASCII inputs used here. -/
def pyLower (s : String) : String :=
  String.mk (s.toList.map Char.toLower)

/-- Model of `parse_ctau_list` (src/2DHistogram.py lines 186-196): split on commas
and strip whitespace. -/
def parse_ctau_list (ctau_string : String) : List String :=
  (pySplit ctau_string ',').map (fun ctau => pyStrip ctau)

/-- Value of a digit string. -/
def digitsVal (cs : List Char) : ℕ :=
  cs.foldl (fun n c => 10 * n + (c.toNat - 48)) 0

/-- Models Python `float()` on finite decimal literals: surrounding
whitespace, an optional sign, digits with at most one decimal point and at
least one digit; `none` where `float()` raises `ValueError`. (Exotic
spellings Python also accepts — exponents, inf/nan, underscore digit
separators — are not modelled; no claim depends on them.) -/
def pyFloat (s : String) : Option ℚ :=
  let (sign, rest) : ℚ × List Char :=
    match (pyStrip s).toList with
    | '-' :: cs => (-1, cs)
    | '+' :: cs => (1, cs)
    | cs => (1, cs)
  match splitOnChar '.' rest with
  | [a] =>
    if a ≠ [] ∧ a.all Char.isDigit then
      some (sign * (digitsVal a : ℚ))
    else none
  | [a, b] =>
    if (a ≠ [] ∨ b ≠ []) ∧ a.all Char.isDigit ∧ b.all Char.isDigit then
      some (sign * ((digitsVal a : ℚ) + (digitsVal b : ℚ) / (10 : ℚ) ^ b.length))
    else none
  | _ => none

/-- Model of `[float(x) for x in s.split(",")]`: the whole comprehension, `none`
where any element raises `ValueError` (i.e. where `s` is not a
comma-separated list of numbers). -/
def pyFloatList (s : String) : Option (List ℚ) :=
  (pySplit s ',').mapM pyFloat

/-- The y-range parsing step of the ratio builder's `main`
(src/ratio.py lines 283-287):
`y_range = [float(x) for x in args.y_range.split(",")] if args.y_range else None`
inside a `try`. The outer `none` is the `ValueError` path (which exits
with status 1); `some none` is the falsy empty string, which silently
yields `y_range = None` without an error. -/
def ratio_parse_y_range (s : String) : Option (Option (List ℚ)) :=
  if s == "" then some none
  else
    match pyFloatList s with
    | some l => some (some l)
    | none => none

/-- Parsed command-line arguments of the ratio builder. -/
structure RatioArgs where
  hist_name : String
  gluino_mass : ℤ
  neutralino_mass : ℤ
  ctau1 : String
  ctau2 : String
  decay_type : String
  era : String
  output_name : String
  log_scale : Bool
  y_range : String
deriving Repr, DecidableEq

/-- Parsed command-line arguments of the grid builder. -/
structure Hist2DArgs where
  hist_name : String
  gluino_mass : ℤ
  neutralino_mass : ℤ
  ctaus : String
  decay_types : String
  era : String
  output_name : String
  log_scale_z : Bool
deriving Repr, DecidableEq

/-- Observable outcome of one run: the process exit status, the image
files written, and the console messages relevant to the claims (load
errors and skip warnings; purely informational prints are not recorded). -/
structure RunResult where
  exitCode : ℕ
  outputs : List String
  messages : List String
deriving Repr, DecidableEq

/-- The numerator filename the ratio builder constructs. -/
def ratio_filename1 (args : RatioArgs) : String :=
  ratio_construct_filename args.gluino_mass args.neutralino_mass args.ctau1 args.decay_type args.era

/-- The denominator filename the ratio builder constructs. -/
def ratio_filename2 (args : RatioArgs) : String :=
  ratio_construct_filename args.gluino_mass args.neutralino_mass args.ctau2 args.decay_type args.era

/-- Model of `main` of src/ratio.py (lines 279-332): parse the y-range (exit 1 on
`ValueError`), construct the two filenames, load both histograms (exit 1
if either is missing), build the ratio histogram (exit 1 if that fails,
which cannot happen once both loads succeeded), then save exactly one PDF
and finish with status 0. -/
def ratio_main (fs : FileSystem) (args : RatioArgs) : RunResult :=
  match ratio_parse_y_range args.y_range with
  | none =>
    ⟨1, [], ["Error: --y-range must be a comma-separated list of numbers (e.g. 1,0.1,0.01)"]⟩
  | some _y_range =>
    let r1 := ratio_load_histogram fs (ratio_filename1 args) args.hist_name
    let r2 := ratio_load_histogram fs (ratio_filename2 args) args.hist_name
    match r1.1, r2.1 with
    | some h1, some h2 =>
      let title := args.hist_name ++ " Ratio: " ++ args.ctau1 ++ " / " ++ args.ctau2
      match create_ratio_plot (some h1) (some h2) title with
      | none => ⟨1, r1.2 ++ r2.2, ["Error: Failed to create ratio histogram"]⟩
      | some _ratio_hist =>
        let output_name :=
          if args.output_name ≠ "" then args.output_name
          else
            "ratio_" ++ args.hist_name ++ "_gluino" ++ toString args.gluino_mass
              ++ "_chi10" ++ toString args.neutralino_mass ++ "_" ++ args.ctau1
              ++ "_vs_" ++ args.ctau2 ++ "_" ++ args.decay_type
        ⟨0, [plots_dir ++ "/" ++ output_name ++ ".pdf"], r1.2 ++ r2.2⟩
    | _, _ => ⟨1, [], r1.2 ++ r2.2 ++ ["Error: Failed to load one or both histograms"]⟩

/-- The decay-type list the grid builder's `main` iterates over
(src/2DHistogram.py lines 229-232). -/
def hist2d_decay_types (args : Hist2DArgs) : List String :=
  if pyLower args.decay_types == "both" then ["lightDecay", "heavyDecay"]
  else [args.decay_types]

/-- The (decay type, ctau) combinations of the grid builder's nested
loading loop, in iteration order: outer loop over decay types, inner loop
over the ctau list. -/
def hist2d_run_pairs (args : Hist2DArgs) : List (String × String) :=
  (hist2d_decay_types args).flatMap
    (fun decay_type => (parse_ctau_list args.ctaus).map (fun ctau => (decay_type, ctau)))

/-- One attempted load inside the grid builder's loop: construct the
filename and call the loader, keeping only the histogram. -/
def hist2d_load_attempt (fs : FileSystem) (args : Hist2DArgs)
    (decay_type ctau : String) : Option TH1 :=
  (hist2d_load_histogram fs
    (hist2d_construct_filename args.gluino_mass args.neutralino_mass ctau decay_type args.era)
    args.hist_name).1

/-- The grid builder's loading loop (src/2DHistogram.py lines 246-267):
for each combination, in order, append the histogram and its generated
label on success, or a skip warning on failure. Returns
(histograms, valid_labels, warnings). -/
def hist2d_gather (fs : FileSystem) (args : Hist2DArgs) :
    List (String × String) → List TH1 × List String × List String
  | [] => ([], [], [])
  | (decay_type, ctau) :: rest =>
    let tail := hist2d_gather fs args rest
    match hist2d_load_attempt fs args decay_type ctau with
    | some h => (h :: tail.1, hist2d_ctau_label ctau decay_type :: tail.2.1, tail.2.2)
    | none =>
      (tail.1, tail.2.1,
        (s!"  Warning: Skipping {ctau} {decay_type} due to loading failure") :: tail.2.2)

/-- Model of `main` of src/2DHistogram.py (lines 198-273): gather the histograms,
exit 1 when none loaded, otherwise build the grid histogram and save
exactly one PDF, finishing with status 0. Skip warnings are carried in
`messages`. -/
def hist2d_main (fs : FileSystem) (args : Hist2DArgs) : RunResult :=
  let g := hist2d_gather fs args (hist2d_run_pairs args)
  if g.1.length = 0 then
    ⟨1, [], g.2.2 ++ ["Error: No histograms could be loaded successfully"]⟩
  else
    match create_2d_histogram g.1 g.2.1 args.hist_name with
    | none => ⟨1, [], g.2.2 ++ ["Error: Failed to create 2D histogram"]⟩
    | some _hist_2d =>
      let output_name :=
        if args.output_name ≠ "" then args.output_name
        else
          let decay_str :=
            if (hist2d_decay_types args).length > 1 then "both"
            else (hist2d_decay_types args).getD 0 ""
          let ctau_str := String.intercalate "_" (parse_ctau_list args.ctaus)
          "2D_" ++ args.hist_name ++ "_gluino" ++ toString args.gluino_mass
            ++ "_chi10" ++ toString args.neutralino_mass ++ "_" ++ decay_str ++ "_" ++ ctau_str
      ⟨0, [plots_dir ++ "/" ++ output_name ++ ".pdf"], g.2.2⟩

lemma getD_map_of_lt (g : ℚ → ℚ) (l : List ℚ) (k : ℕ) (hk : k < l.length) :
    (l.map g).getD k 0 = g (l.getD k 0) := by
  rw [List.getD_eq_getElem _ _ (by simpa using hk), List.getD_eq_getElem _ _ hk]
  simp

lemma getD_zipWith_of_lt (f : ℚ → ℚ → ℚ) (l1 l2 : List ℚ) (k : ℕ)
    (h1 : k < l1.length) (h2 : k < l2.length) :
    (List.zipWith f l1 l2).getD k 0 = f (l1.getD k 0) (l2.getD k 0) := by
  have hz : k < (List.zipWith f l1 l2).length := by
    rw [List.length_zipWith]; omega
  rw [List.getD_eq_getElem _ _ hz, List.getD_eq_getElem _ _ h1, List.getD_eq_getElem _ _ h2]
  simp [List.getElem_zipWith]

lemma GetBinContent_of_ge_one (h : TH1) (i : ℕ) (hi : 1 ≤ i) :
    h.GetBinContent i = h.bins.getD (i - 1) 0 := by
  unfold TH1.GetBinContent
  rw [if_neg (by omega)]

lemma Scale_GetBinContent (h : TH1) (c : ℚ) (i : ℕ) (hi1 : 1 ≤ i)
    (hi2 : i ≤ h.bins.length) :
    (h.Scale c).GetBinContent i = c * h.GetBinContent i := by
  unfold TH1.Scale
  rw [GetBinContent_of_ge_one _ _ hi1, GetBinContent_of_ge_one _ _ hi1]
  exact getD_map_of_lt _ _ _ (by omega)

lemma normalizeByFirstBin_pos (h : TH1) (fhn fn : String)
    (hpos : 0 < h.GetBinContent 1) :
    normalizeByFirstBin h fhn fn = (h.Scale (1 / h.GetBinContent 1), []) := by
  unfold normalizeByFirstBin
  simp only [if_pos hpos]

/-- Claim C3: for every histogram whose first bin has value V > 0, the
ratio builder's normalization step yields a histogram whose first bin
equals 1.0 and whose every other bin i equals its original value divided
by V. -/
theorem claim_C3_normalize_positive (h : TH1) (full_hist_name filename : String)
    (V : ℚ) (hV : h.GetBinContent 1 = V) (hpos : 0 < V) :
    (normalizeByFirstBin h full_hist_name filename).1.GetBinContent 1 = 1 ∧
    ∀ i, 1 ≤ i → i ≤ h.bins.length →
      (normalizeByFirstBin h full_hist_name filename).1.GetBinContent i
        = h.GetBinContent i / V := by
  subst hV
  have hne : h.bins ≠ [] := by
    intro hnil
    rw [GetBinContent_of_ge_one _ _ le_rfl, hnil] at hpos
    simp [List.getD] at hpos
  have hlen : 1 ≤ h.bins.length := List.length_pos.mpr hne
  rw [normalizeByFirstBin_pos _ _ _ hpos]
  refine ⟨?_, ?_⟩
  · rw [Scale_GetBinContent _ _ _ le_rfl hlen]
    field_simp
  · intro i hi1 hi2
    rw [Scale_GetBinContent _ _ _ hi1 hi2]
    ring

/-- Witness for C3: normalizing a histogram with bins `[100, 50, 25, 10]`
gives first bin 1 and second bin 1/2. -/
theorem claim_C3_witness :
    (normalizeByFirstBin ⟨"h", "", [100, 50, 25, 10], 0, 4, [], ""⟩
        "HSCPMiniAODAnalyzer/h" "f.root").1.GetBinContent 1 = 1 ∧
    (normalizeByFirstBin ⟨"h", "", [100, 50, 25, 10], 0, 4, [], ""⟩
        "HSCPMiniAODAnalyzer/h" "f.root").1.GetBinContent 2 = 1 / 2 := by
  have hmain := claim_C3_normalize_positive
    ⟨"h", "", [100, 50, 25, 10], 0, 4, [], ""⟩ "HSCPMiniAODAnalyzer/h" "f.root" 100
    (by norm_num [TH1.GetBinContent, List.getD]) (by norm_num)
  refine ⟨hmain.1, ?_⟩
  rw [hmain.2 2 (by norm_num) (by norm_num)]
  norm_num [TH1.GetBinContent, List.getD]

/-- Claim C4: for every histogram whose first bin is 0, the ratio
builder's normalization step leaves every bin unchanged and emits a
warning message; the branch contains no raising operation (the embedding
is a total function). -/
theorem claim_C4_normalize_zero (h : TH1) (full_hist_name filename : String)
    (h0 : h.GetBinContent 1 = 0) :
    (normalizeByFirstBin h full_hist_name filename).1 = h ∧
    (normalizeByFirstBin h full_hist_name filename).2 ≠ [] := by
  unfold normalizeByFirstBin
  rw [h0]
  norm_num

/-- Witness for C4: a histogram with bins `[0, 5]` is returned unchanged
together with a warning. -/
theorem claim_C4_witness :
    (normalizeByFirstBin ⟨"h", "", [0, 5], 0, 2, [], ""⟩ "HSCPMiniAODAnalyzer/h" "f.root").1
      = ⟨"h", "", [0, 5], 0, 2, [], ""⟩ ∧
    (normalizeByFirstBin ⟨"h", "", [0, 5], 0, 2, [], ""⟩ "HSCPMiniAODAnalyzer/h" "f.root").2
      ≠ [] := by
  exact claim_C4_normalize_zero ⟨"h", "", [0, 5], 0, 2, [], ""⟩ _ _
    (by norm_num [TH1.GetBinContent, List.getD])

lemma Divide_GetBinContent (num den : TH1) (hlen : num.bins.length = den.bins.length)
    (i : ℕ) (hi1 : 1 ≤ i) (hi2 : i ≤ num.bins.length) :
    (num.Divide den).GetBinContent i
      = if den.GetBinContent i = 0 then 0
        else num.GetBinContent i / den.GetBinContent i := by
  unfold TH1.Divide
  rw [if_pos hlen]
  rw [GetBinContent_of_ge_one _ _ hi1, GetBinContent_of_ge_one _ _ hi1,
    GetBinContent_of_ge_one _ _ hi1]
  exact getD_zipWith_of_lt _ num.bins den.bins (i - 1) (by omega) (by omega)

/-- Claim C1: for histograms with identical binning, the ratio histogram
has bin i equal to numerator bin i over denominator bin i where the
denominator bin is nonzero, and 0 where the denominator bin is 0. -/
theorem claim_C1_ratio_bins (h1 h2 : TH1) (title : String)
    (hlen : h1.bins.length = h2.bins.length) :
    (create_ratio_plot (some h1) (some h2) title).isSome = true ∧
    ∀ i, 1 ≤ i → i ≤ h1.bins.length →
      ((create_ratio_plot (some h1) (some h2) title).getD default).GetBinContent i
        = if h2.GetBinContent i = 0 then 0
          else h1.GetBinContent i / h2.GetBinContent i := by
  refine ⟨rfl, ?_⟩
  intro i hi1 hi2
  show (((h1.Clone ("ratio_" ++ h1.name ++ "_" ++ h2.name)).SetTitle title).Divide h2).GetBinContent i = _
  rw [Divide_GetBinContent ((h1.Clone ("ratio_" ++ h1.name ++ "_" ++ h2.name)).SetTitle title)
    h2 hlen i hi1 hi2]
  rfl

/-- Witness for C1: numerator bins `[1, 3]`, denominator bins `[2, 0]`
give ratio bins `1/2` and `0`. -/
theorem claim_C1_witness :
    ((create_ratio_plot (some ⟨"a", "", [1, 3], 0, 2, [], ""⟩)
        (some ⟨"b", "", [2, 0], 0, 2, [], ""⟩) "t").getD default).GetBinContent 1 = 1 / 2 ∧
    ((create_ratio_plot (some ⟨"a", "", [1, 3], 0, 2, [], ""⟩)
        (some ⟨"b", "", [2, 0], 0, 2, [], ""⟩) "t").getD default).GetBinContent 2 = 0 := by
  have hmain := claim_C1_ratio_bins ⟨"a", "", [1, 3], 0, 2, [], ""⟩
    ⟨"b", "", [2, 0], 0, 2, [], ""⟩ "t" (by norm_num)
  constructor
  · rw [hmain.2 1 (by norm_num) (by norm_num)]
    norm_num [TH1.GetBinContent, List.getD]
  · rw [hmain.2 2 (by norm_num) (by norm_num)]
    norm_num [TH1.GetBinContent, List.getD]

lemma setCell_apply (f : ℕ → ℕ → ℚ) (x y : ℕ) (v : ℚ) (a b : ℕ) :
    setCell f x y v a b = if a = x ∧ b = y then v else f a b := rfl

lemma fillRowFrom_apply (h : TH1) :
    ∀ (n : ℕ) (f : ℕ → ℕ → ℚ) (y x a b : ℕ),
      fillRowFrom f h y x n a b
        = if b = y ∧ x ≤ a ∧ a < x + n then h.GetBinContent a else f a b := by
  intro n
  induction n with
  | zero =>
    intro f y x a b
    simp only [fillRowFrom]
    rw [if_neg (by omega)]
  | succ m ih =>
    intro f y x a b
    simp only [fillRowFrom]
    rw [ih, setCell_apply]
    by_cases hb : b = y
    · subst hb
      by_cases hax : a = x
      · subst hax
        rw [if_neg (by omega), if_pos ⟨rfl, rfl⟩, if_pos ⟨rfl, by omega, by omega⟩]
      · by_cases hr : x + 1 ≤ a ∧ a < x + 1 + m
        · rw [if_pos ⟨rfl, hr.1, hr.2⟩, if_pos ⟨rfl, by omega, by omega⟩]
        · rw [if_neg (by tauto), if_neg (by tauto), if_neg (by omega)]
    · rw [if_neg (by tauto), if_neg (by tauto), if_neg (by tauto)]

lemma fillRows_apply (nx : ℕ) :
    ∀ (hs : List TH1) (f : ℕ → ℕ → ℚ) (y a b : ℕ),
      fillRows f hs y nx a b
        = if 1 ≤ a ∧ a ≤ nx ∧ y ≤ b ∧ b < y + hs.length
          then (hs.getD (b - y) default).GetBinContent a
          else f a b := by
  intro hs
  induction hs with
  | nil =>
    intro f y a b
    simp only [fillRows, List.length_nil]
    rw [if_neg (by omega)]
  | cons h t ih =>
    intro f y a b
    simp only [fillRows, List.length_cons]
    rw [ih, fillRowFrom_apply]
    by_cases h1 : 1 ≤ a ∧ a ≤ nx ∧ y + 1 ≤ b ∧ b < y + 1 + t.length
    · rw [if_pos h1, if_pos ⟨h1.1, h1.2.1, by omega, by omega⟩]
      have hsub : b - y = (b - (y + 1)) + 1 := by omega
      rw [hsub, List.getD_cons_succ]
    · rw [if_neg h1]
      by_cases h2 : b = y ∧ 1 ≤ a ∧ a < 1 + nx
      · rw [if_pos h2, if_pos ⟨h2.2.1, by omega, by omega, by omega⟩]
        have hsub : b - y = 0 := by omega
        rw [hsub, List.getD_cons_zero]
      · rw [if_neg h2, if_neg (by omega)]

/-- Claim C2: for a non-empty list of N histograms sharing X-axis bin
count B, the grid builder's create_2d_histogram returns a 2D histogram
with exactly B columns and N rows, cell (j, k+1) equal to histogram k's
bin j, and row k+1's Y-axis label equal to the k-th supplied label. -/
theorem claim_C2_grid (hists : List TH1) (labels : List String)
    (hist_name : String) (B : ℕ) (hne : hists ≠ [])
    (hB : ∀ h ∈ hists, h.GetNbinsX = B) (hlab : labels.length = hists.length) :
    (create_2d_histogram hists labels hist_name).isSome = true ∧
    ((create_2d_histogram hists labels hist_name).getD default).nX = B ∧
    ((create_2d_histogram hists labels hist_name).getD default).nY = hists.length ∧
    (∀ k, k < hists.length → ∀ j, 1 ≤ j → j ≤ B →
      ((create_2d_histogram hists labels hist_name).getD default).content j (k + 1)
        = (hists.getD k default).GetBinContent j) ∧
    (∀ k, k < hists.length →
      ((create_2d_histogram hists labels hist_name).getD default).ybinLabel (k + 1)
        = labels.getD k "") := by
  match hists, hne with
  | first :: rest, _ =>
  have hB1 : first.GetNbinsX = B := hB first (by simp)
  refine ⟨rfl, hB1, rfl, ?_, ?_⟩
  · intro k hk j hj1 hj2
    show fillRows (fun _ _ => 0) (first :: rest) 1 first.GetNbinsX j (k + 1) = _
    rw [fillRows_apply]
    rw [if_pos ⟨hj1, by rw [hB1]; exact hj2, by omega,
      by simp only [List.length_cons] at hk ⊢; omega⟩]
    norm_num
  · intro k hk
    rw [List.length_cons] at hk
    show (if 1 ≤ k + 1 ∧ k + 1 ≤ labels.length then labels.getD (k + 1 - 1) "" else "")
      = labels.getD k ""
    rw [List.length_cons] at hlab
    rw [if_pos ⟨by omega, by omega⟩]
    norm_num

/-- Witness for C2: two 2-bin histograms produce a 2-column, 2-row grid
whose cells and row labels match the inputs. -/
theorem claim_C2_witness :
    (create_2d_histogram [⟨"a", "", [10, 20], 0, 2, [], ""⟩, ⟨"b", "", [30, 40], 0, 2, [], ""⟩]
      ["0.1 (L)", "1 (L)"] "EventCutFlow").isSome = true ∧
    ((create_2d_histogram [⟨"a", "", [10, 20], 0, 2, [], ""⟩, ⟨"b", "", [30, 40], 0, 2, [], ""⟩]
      ["0.1 (L)", "1 (L)"] "EventCutFlow").getD default).nX = 2 ∧
    ((create_2d_histogram [⟨"a", "", [10, 20], 0, 2, [], ""⟩, ⟨"b", "", [30, 40], 0, 2, [], ""⟩]
      ["0.1 (L)", "1 (L)"] "EventCutFlow").getD default).nY = 2 ∧
    ((create_2d_histogram [⟨"a", "", [10, 20], 0, 2, [], ""⟩, ⟨"b", "", [30, 40], 0, 2, [], ""⟩]
      ["0.1 (L)", "1 (L)"] "EventCutFlow").getD default).content 2 1 = 20 ∧
    ((create_2d_histogram [⟨"a", "", [10, 20], 0, 2, [], ""⟩, ⟨"b", "", [30, 40], 0, 2, [], ""⟩]
      ["0.1 (L)", "1 (L)"] "EventCutFlow").getD default).content 1 2 = 30 ∧
    ((create_2d_histogram [⟨"a", "", [10, 20], 0, 2, [], ""⟩, ⟨"b", "", [30, 40], 0, 2, [], ""⟩]
      ["0.1 (L)", "1 (L)"] "EventCutFlow").getD default).ybinLabel 2 = "1 (L)" := by
  have hmain := claim_C2_grid
    [⟨"a", "", [10, 20], 0, 2, [], ""⟩, ⟨"b", "", [30, 40], 0, 2, [], ""⟩]
    ["0.1 (L)", "1 (L)"] "EventCutFlow" 2 (by simp)
    (by intro h hm; simp [TH1.GetNbinsX] at hm ⊢; rcases hm with h1 | h1 <;> rw [h1] <;> rfl)
    (by simp)
  refine ⟨hmain.1, hmain.2.1, hmain.2.2.1, ?_, ?_, ?_⟩
  · rw [hmain.2.2.2.1 0 (by simp) 2 (by omega) (by omega)]
    norm_num [TH1.GetBinContent, List.getD]
  · rw [hmain.2.2.2.1 1 (by simp) 1 (by omega) (by omega)]
    norm_num [TH1.GetBinContent, List.getD]
  · rw [hmain.2.2.2.2 1 (by simp)]
    norm_num [List.getD]

/-- A file-system state exhibiting the difference between the two
loaders: one readable file whose histogram lives only under the
`HSCPFullAODAnalyzer` directory. -/
def ce_hist : TH1 := ⟨"h", "t", [0], 0, 1, [], ""⟩

def ce_file : ROOTFile := ⟨false, [("HSCPFullAODAnalyzer/h", ce_hist)]⟩

def ce_fs : FileSystem := ⟨[(ntuples_dir ++ "/f.root", ce_file)]⟩

lemma ratio_load_none_iff (fs : FileSystem) (filename hist_name : String) :
    (ratio_load_histogram fs filename hist_name).1 = none ↔
      fs.lookup (ntuples_dir ++ "/" ++ filename) = none ∨
      ∃ rf, fs.lookup (ntuples_dir ++ "/" ++ filename) = some rf ∧
        (rf.zombie = true ∨
          (rf.Get ("HSCPMiniAODAnalyzer/" ++ hist_name) = none ∧
           rf.Get ("HSCPFullAODAnalyzer/" ++ hist_name) = none)) := by
  unfold ratio_load_histogram
  rcases hlk : fs.lookup (ntuples_dir ++ "/" ++ filename) with _ | rf
  · simp [hlk]
  · cases hz : rf.zombie
    · rcases hm : rf.Get ("HSCPMiniAODAnalyzer/" ++ hist_name) with _ | h
      · rcases hf : rf.Get ("HSCPFullAODAnalyzer/" ++ hist_name) with _ | h
        · simp [hlk, hz, hm, hf]
        · simp [hlk, hz, hm, hf]
      · simp [hlk, hz, hm]
    · simp [hlk, hz]

lemma hist2d_load_none_iff (fs : FileSystem) (filename hist_name : String) :
    (hist2d_load_histogram fs filename hist_name).1 = none ↔
      fs.lookup (ntuples_dir ++ "/" ++ filename) = none ∨
      ∃ rf, fs.lookup (ntuples_dir ++ "/" ++ filename) = some rf ∧
        (rf.zombie = true ∨
          rf.Get ("HSCPMiniAODAnalyzer/" ++ hist_name) = none) := by
  unfold hist2d_load_histogram
  rcases hlk : fs.lookup (ntuples_dir ++ "/" ++ filename) with _ | rf
  · simp [hlk]
  · cases hz : rf.zombie
    · rcases hm : rf.Get ("HSCPMiniAODAnalyzer/" ++ hist_name) with _ | h
      · simp [hlk, hz, hm]
      · simp [hlk, hz, hm]
    · simp [hlk, hz]

lemma ratio_load_msgs_of_none (fs : FileSystem) (filename hist_name : String)
    (hnone : (ratio_load_histogram fs filename hist_name).1 = none) :
    (ratio_load_histogram fs filename hist_name).2 ≠ [] := by
  unfold ratio_load_histogram at hnone ⊢
  rcases hlk : fs.lookup (ntuples_dir ++ "/" ++ filename) with _ | rf
  · simp [hlk]
  · cases hz : rf.zombie
    · rcases hm : rf.Get ("HSCPMiniAODAnalyzer/" ++ hist_name) with _ | h
      · rcases hf : rf.Get ("HSCPFullAODAnalyzer/" ++ hist_name) with _ | h
        · simp [hlk, hz, hm, hf]
        · simp [hlk, hz, hm, hf] at hnone
      · simp [hlk, hz, hm] at hnone
    · simp [hlk, hz]

lemma hist2d_load_msgs_of_none (fs : FileSystem) (filename hist_name : String)
    (hnone : (hist2d_load_histogram fs filename hist_name).1 = none) :
    (hist2d_load_histogram fs filename hist_name).2 ≠ [] := by
  unfold hist2d_load_histogram at hnone ⊢
  rcases hlk : fs.lookup (ntuples_dir ++ "/" ++ filename) with _ | rf
  · simp [hlk]
  · cases hz : rf.zombie
    · rcases hm : rf.Get ("HSCPMiniAODAnalyzer/" ++ hist_name) with _ | h
      · simp [hlk, hz, hm]
      · simp [hlk, hz, hm] at hnone
    · simp [hlk, hz]

lemma ratio_load_of_hist2d_some (fs : FileSystem) (filename hist_name : String)
    (h : TH1) (hsome : (hist2d_load_histogram fs filename hist_name).1 = some h) :
    (ratio_load_histogram fs filename hist_name).1
      = some (normalizeByFirstBin h ("HSCPMiniAODAnalyzer/" ++ hist_name) filename).1 := by
  unfold hist2d_load_histogram at hsome
  unfold ratio_load_histogram
  rcases hlk : fs.lookup (ntuples_dir ++ "/" ++ filename) with _ | rf
  · simp [hlk] at hsome
  · cases hz : rf.zombie
    · rcases hm : rf.Get ("HSCPMiniAODAnalyzer/" ++ hist_name) with _ | hist
      · simp [hlk, hz, hm] at hsome
      · simp [hlk, hz, hm] at hsome ⊢
        rw [hsome]
    · simp [hlk, hz] at hsome

lemma loaders_differ_on_fullaod (fs : FileSystem) (filename hist_name : String)
    (rf : ROOTFile) (h : TH1)
    (hlk : fs.lookup (ntuples_dir ++ "/" ++ filename) = some rf)
    (hz : rf.zombie = false)
    (hm : rf.Get ("HSCPMiniAODAnalyzer/" ++ hist_name) = none)
    (hf : rf.Get ("HSCPFullAODAnalyzer/" ++ hist_name) = some h) :
    (hist2d_load_histogram fs filename hist_name).1 = none ∧
    (ratio_load_histogram fs filename hist_name).1
      = some (normalizeByFirstBin
          (h.Clone (hist_name ++ "_" ++ filename.replace ".root" ""))
          ("HSCPFullAODAnalyzer/" ++ hist_name) filename).1 := by
  unfold hist2d_load_histogram ratio_load_histogram
  constructor
  · simp [hlk, hz, hm]
  · simp [hlk, hz, hm, hf]

/-- Claim C5 (amended): the two load steps locate the file identically
(both fail on a missing or unreadable file), but they are not identical:
when the grid builder's loader succeeds, the ratio builder's loader
returns the same clone additionally normalized by its first bin, and on a
file whose histogram lives only under the `HSCPFullAODAnalyzer` internal
directory the ratio builder's loader succeeds while the grid builder's
loader returns no histogram. -/
theorem claim_C5_loaders (fs : FileSystem) (filename hist_name : String) :
    (fs.lookup (ntuples_dir ++ "/" ++ filename) = none →
      (ratio_load_histogram fs filename hist_name).1 = none ∧
      (hist2d_load_histogram fs filename hist_name).1 = none) ∧
    (∀ rf, fs.lookup (ntuples_dir ++ "/" ++ filename) = some rf → rf.zombie = true →
      (ratio_load_histogram fs filename hist_name).1 = none ∧
      (hist2d_load_histogram fs filename hist_name).1 = none) ∧
    (∀ h, (hist2d_load_histogram fs filename hist_name).1 = some h →
      (ratio_load_histogram fs filename hist_name).1
        = some (normalizeByFirstBin h ("HSCPMiniAODAnalyzer/" ++ hist_name) filename).1) ∧
    (∀ rf h, fs.lookup (ntuples_dir ++ "/" ++ filename) = some rf → rf.zombie = false →
      rf.Get ("HSCPMiniAODAnalyzer/" ++ hist_name) = none →
      rf.Get ("HSCPFullAODAnalyzer/" ++ hist_name) = some h →
      (hist2d_load_histogram fs filename hist_name).1 = none ∧
      (ratio_load_histogram fs filename hist_name).1
        = some (normalizeByFirstBin
            (h.Clone (hist_name ++ "_" ++ filename.replace ".root" ""))
            ("HSCPFullAODAnalyzer/" ++ hist_name) filename).1) := by
  refine ⟨?_, ?_, ?_, ?_⟩
  · intro hlk
    exact ⟨(ratio_load_none_iff fs filename hist_name).mpr (Or.inl hlk),
      (hist2d_load_none_iff fs filename hist_name).mpr (Or.inl hlk)⟩
  · intro rf hlk hz
    exact ⟨(ratio_load_none_iff fs filename hist_name).mpr (Or.inr ⟨rf, hlk, Or.inl hz⟩),
      (hist2d_load_none_iff fs filename hist_name).mpr (Or.inr ⟨rf, hlk, Or.inl hz⟩)⟩
  · intro h hsome
    exact ratio_load_of_hist2d_some fs filename hist_name h hsome
  · intro rf h hlk hz hm hf
    exact loaders_differ_on_fullaod fs filename hist_name rf h hlk hz hm hf

/-- Counterexample to C5 as stated: on the file-system state `ce_fs`
(file present and readable, histogram stored only under
`HSCPFullAODAnalyzer`), the two loaders return different results. -/
theorem claim_C5_counterexample :
    ratio_load_histogram ce_fs "f.root" "h" ≠ hist2d_load_histogram ce_fs "f.root" "h" := by
  intro he
  have h1 : (hist2d_load_histogram ce_fs "f.root" "h").1 = none := rfl
  have h2 : (ratio_load_histogram ce_fs "f.root" "h").1.isSome = true := rfl
  rw [he, h1] at h2
  exact Bool.noConfusion h2

/-- Witness for C5 (amended): the concrete differing outcome on `ce_fs`,
obtained from the amended theorem. -/
theorem claim_C5_witness :
    (hist2d_load_histogram ce_fs "f.root" "h").1 = none ∧
    (ratio_load_histogram ce_fs "f.root" "h").1
      = some (normalizeByFirstBin (ce_hist.Clone ("h" ++ "_" ++ ("f.root".replace ".root" "")))
          ("HSCPFullAODAnalyzer/" ++ "h") "f.root").1 :=
  (claim_C5_loaders ce_fs "f.root" "h").2.2.2 ce_file ce_hist rfl rfl rfl rfl

/-- Claim C6 (amended): each loader returns `none` together with a console
message, and never otherwise; the ratio builder's loader fails exactly
when the file is missing, unreadable, or lacks the histogram under both
known internal directory prefixes, while the grid builder's loader fails
exactly when the file is missing, unreadable, or lacks the histogram under
the single prefix `HSCPMiniAODAnalyzer` that it checks; on success the
grid builder's loader returns a standalone clone of the stored histogram. -/
theorem claim_C6_loader_contract (fs : FileSystem) (filename hist_name : String) :
    ((ratio_load_histogram fs filename hist_name).1 = none ↔
      fs.lookup (ntuples_dir ++ "/" ++ filename) = none ∨
      ∃ rf, fs.lookup (ntuples_dir ++ "/" ++ filename) = some rf ∧
        (rf.zombie = true ∨
          (rf.Get ("HSCPMiniAODAnalyzer/" ++ hist_name) = none ∧
           rf.Get ("HSCPFullAODAnalyzer/" ++ hist_name) = none))) ∧
    ((ratio_load_histogram fs filename hist_name).1 = none →
      (ratio_load_histogram fs filename hist_name).2 ≠ []) ∧
    ((hist2d_load_histogram fs filename hist_name).1 = none ↔
      fs.lookup (ntuples_dir ++ "/" ++ filename) = none ∨
      ∃ rf, fs.lookup (ntuples_dir ++ "/" ++ filename) = some rf ∧
        (rf.zombie = true ∨
          rf.Get ("HSCPMiniAODAnalyzer/" ++ hist_name) = none)) ∧
    ((hist2d_load_histogram fs filename hist_name).1 = none →
      (hist2d_load_histogram fs filename hist_name).2 ≠ []) ∧
    (∀ h, (hist2d_load_histogram fs filename hist_name).1 = some h →
      ∃ rf hist, fs.lookup (ntuples_dir ++ "/" ++ filename) = some rf ∧
        rf.zombie = false ∧
        rf.Get ("HSCPMiniAODAnalyzer/" ++ hist_name) = some hist ∧
        h = hist.Clone (hist_name ++ "_" ++ filename.replace ".root" "")) := by
  refine ⟨ratio_load_none_iff fs filename hist_name,
    ratio_load_msgs_of_none fs filename hist_name,
    hist2d_load_none_iff fs filename hist_name,
    hist2d_load_msgs_of_none fs filename hist_name, ?_⟩
  intro h hsome
  unfold hist2d_load_histogram at hsome
  rcases hlk : fs.lookup (ntuples_dir ++ "/" ++ filename) with _ | rf
  · simp [hlk] at hsome
  · cases hz : rf.zombie
    · rcases hm : rf.Get ("HSCPMiniAODAnalyzer/" ++ hist_name) with _ | hist
      · simp [hlk, hz, hm] at hsome
      · simp [hlk, hz, hm] at hsome
        exact ⟨rf, hist, rfl, hz, hm, hsome.symm⟩
    · simp [hlk, hz] at hsome

/-- Counterexample to C6 as stated: on `ce_fs` the file exists, is
readable, and contains the histogram under the second known prefix, yet
the grid builder's loader returns no histogram. -/
theorem claim_C6_counterexample :
    (FileSystem.lookup ce_fs (ntuples_dir ++ "/" ++ "f.root")).isSome = true ∧
    ce_file.zombie = false ∧
    (ce_file.Get ("HSCPFullAODAnalyzer/" ++ "h")).isSome = true ∧
    (hist2d_load_histogram ce_fs "f.root" "h").1 = none := by
  exact ⟨rfl, rfl, rfl, rfl⟩

/-- Witness for C6 (amended): a missing file makes the ratio loader fail
with a message, obtained from the amended theorem. -/
theorem claim_C6_witness :
    (ratio_load_histogram ce_fs "g.root" "h").1 = none ∧
    (ratio_load_histogram ce_fs "g.root" "h").2 ≠ [] := by
  have hmain := claim_C6_loader_contract ce_fs "g.root" "h"
  have hnone : (ratio_load_histogram ce_fs "g.root" "h").1 = none :=
    hmain.1.mpr (Or.inl rfl)
  exact ⟨hnone, hmain.2.1 hnone⟩

lemma ratio_parse_y_range_none_iff (s : String) :
    ratio_parse_y_range s = none ↔ s ≠ "" ∧ pyFloatList s = none := by
  unfold ratio_parse_y_range
  cases hs : (s == "") with
  | true =>
    have hseq : s = "" := by simpa using hs
    simp [hs, hseq]
  | false =>
    have hsne : s ≠ "" := by
      intro h
      rw [h] at hs
      simp at hs
    rcases hm : pyFloatList s with _ | l
    · simp [hs, hm, hsne]
    · simp [hs, hm, hsne]

/-- Claim C7 (amended): the ratio builder exits with code 1 and writes no
output file exactly when the y-range flag is non-empty and fails to parse
as a comma-separated list of numbers, or either named histogram cannot be
loaded (an empty y-range flag is treated as absent, not as an error);
otherwise it exits with code 0 after saving exactly one image file. -/
theorem claim_C7_ratio_main (fs : FileSystem) (args : RatioArgs) :
    ((ratio_main fs args).exitCode = 1 ∧ (ratio_main fs args).outputs = [] ↔
      (args.y_range ≠ "" ∧ pyFloatList args.y_range = none) ∨
      (ratio_load_histogram fs (ratio_filename1 args) args.hist_name).1 = none ∨
      (ratio_load_histogram fs (ratio_filename2 args) args.hist_name).1 = none) ∧
    (¬((args.y_range ≠ "" ∧ pyFloatList args.y_range = none) ∨
        (ratio_load_histogram fs (ratio_filename1 args) args.hist_name).1 = none ∨
        (ratio_load_histogram fs (ratio_filename2 args) args.hist_name).1 = none) →
      (ratio_main fs args).exitCode = 0 ∧ (ratio_main fs args).outputs.length = 1) := by
  rcases hp : ratio_parse_y_range args.y_range with _ | yr
  · have hcond : args.y_range ≠ "" ∧ pyFloatList args.y_range = none :=
      (ratio_parse_y_range_none_iff args.y_range).mp hp
    refine ⟨⟨fun _ => Or.inl hcond, fun _ => ?_⟩, fun hn => absurd (Or.inl hcond) hn⟩
    simp [ratio_main, hp]
  · have hpn : ¬(args.y_range ≠ "" ∧ pyFloatList args.y_range = none) := by
      intro hc
      rw [(ratio_parse_y_range_none_iff args.y_range).mpr hc] at hp
      exact Option.noConfusion hp
    rcases h1 : (ratio_load_histogram fs (ratio_filename1 args) args.hist_name).1 with _ | hh1 <;>
      rcases h2 : (ratio_load_histogram fs (ratio_filename2 args) args.hist_name).1 with _ | hh2
    · refine ⟨⟨fun _ => Or.inr (Or.inl rfl), fun _ => ?_⟩,
        fun hn => absurd (Or.inr (Or.inl rfl)) hn⟩
      simp [ratio_main, hp, h1, h2]
    · refine ⟨⟨fun _ => Or.inr (Or.inl rfl), fun _ => ?_⟩,
        fun hn => absurd (Or.inr (Or.inl rfl)) hn⟩
      simp [ratio_main, hp, h1, h2]
    · refine ⟨⟨fun _ => Or.inr (Or.inr rfl), fun _ => ?_⟩,
        fun hn => absurd (Or.inr (Or.inr rfl)) hn⟩
      simp [ratio_main, hp, h1, h2]
    · have hrun : (ratio_main fs args).exitCode = 0 ∧ (ratio_main fs args).outputs.length = 1 := by
        simp [ratio_main, hp, h1, h2, create_ratio_plot]
      refine ⟨⟨fun hx => absurd hrun.1 (by rw [hx.1]; exact one_ne_zero), fun hor => ?_⟩,
        fun _ => hrun⟩
      rcases hor with hc | hn1 | hn2
      · exact absurd hc hpn
      · exact Option.noConfusion hn1
      · exact Option.noConfusion hn2

/-- File-system state for the ratio builder's end-to-end runs: both input
files exist, are readable, and hold the histogram under the first
prefix with first bin 0 (so normalization is skipped). -/
def c7_hist : TH1 := ⟨"EventCutFlow", "t", [0], 0, 1, [], ""⟩

def c7_file : ROOTFile := ⟨false, [("HSCPMiniAODAnalyzer/EventCutFlow", c7_hist)]⟩

def c7_fs : FileSystem := ⟨[
  (ntuples_dir ++ "/gluino1_chi102_1mm_lightDecay_e.root", c7_file),
  (ntuples_dir ++ "/gluino1_chi102_2mm_lightDecay_e.root", c7_file)]⟩

/-- Arguments with an empty y-range flag. -/
def c7_args : RatioArgs :=
  ⟨"EventCutFlow", 1, 2, "1mm", "2mm", "lightDecay", "e", "o", false, ""⟩

/-- Counterexample to C7 as stated: the empty string is not a
comma-separated list of numbers, yet with both histograms loadable the run
exits with code 0 and saves an output file instead of exiting with code 1
and writing nothing. -/
theorem claim_C7_counterexample :
    pyFloatList "" = none ∧
    (ratio_main c7_fs c7_args).exitCode = 0 ∧
    (ratio_main c7_fs c7_args).outputs ≠ [] := by
  refine ⟨rfl, rfl, ?_⟩
  intro h
  have hlen : (ratio_main c7_fs c7_args).outputs.length = 0 := by rw [h]; rfl
  have hone : (ratio_main c7_fs c7_args).outputs.length = 1 := rfl
  rw [hlen] at hone
  exact Nat.noConfusion hone

/-- Witness for C7 (amended): a run whose denominator file is missing
exits with code 1 and writes nothing. -/
theorem claim_C7_witness :
    (ratio_main c7_fs ⟨"EventCutFlow", 1, 2, "1mm", "9mm", "lightDecay", "e", "o", false, "1,0.5"⟩).exitCode = 1 ∧
    (ratio_main c7_fs ⟨"EventCutFlow", 1, 2, "1mm", "9mm", "lightDecay", "e", "o", false, "1,0.5"⟩).outputs = [] :=
  (claim_C7_ratio_main c7_fs
    ⟨"EventCutFlow", 1, 2, "1mm", "9mm", "lightDecay", "e", "o", false, "1,0.5"⟩).1.mpr
    (Or.inr (Or.inr rfl))

lemma hist2d_gather_hists (fs : FileSystem) (args : Hist2DArgs) :
    ∀ pairs : List (String × String),
      (hist2d_gather fs args pairs).1
        = pairs.filterMap (fun p => hist2d_load_attempt fs args p.1 p.2) := by
  intro pairs
  induction pairs with
  | nil => rfl
  | cons p rest ih =>
    obtain ⟨d, c⟩ := p
    simp only [hist2d_gather, List.filterMap_cons]
    rcases hl : hist2d_load_attempt fs args d c with _ | h
    · simpa [hl] using ih
    · simpa [hl] using ih

lemma hist2d_gather_warn_count (fs : FileSystem) (args : Hist2DArgs) :
    ∀ pairs : List (String × String),
      (hist2d_gather fs args pairs).2.2.length
        = (pairs.filter (fun p => (hist2d_load_attempt fs args p.1 p.2).isNone)).length := by
  intro pairs
  induction pairs with
  | nil => rfl
  | cons p rest ih =>
    obtain ⟨d, c⟩ := p
    simp only [hist2d_gather, List.filter_cons]
    rcases hl : hist2d_load_attempt fs args d c with _ | h
    · simpa [hl] using ih
    · simpa [hl] using ih

/-- Claim C8: if zero histograms load, the grid builder exits with status
1 and writes no output file; if at least one loads, the run is not aborted
(exit 0, exactly one image saved) and every failing combination
contributes exactly one skip warning. -/
theorem claim_C8_grid_main (fs : FileSystem) (args : Hist2DArgs) :
    ((hist2d_run_pairs args).filterMap (fun p => hist2d_load_attempt fs args p.1 p.2) = [] →
      (hist2d_main fs args).exitCode = 1 ∧ (hist2d_main fs args).outputs = []) ∧
    ((hist2d_run_pairs args).filterMap (fun p => hist2d_load_attempt fs args p.1 p.2) ≠ [] →
      (hist2d_main fs args).exitCode = 0 ∧ (hist2d_main fs args).outputs.length = 1 ∧
      (hist2d_main fs args).messages.length
        = ((hist2d_run_pairs args).filter
            (fun p => (hist2d_load_attempt fs args p.1 p.2).isNone)).length) := by
  have hh := hist2d_gather_hists fs args (hist2d_run_pairs args)
  have hw := hist2d_gather_warn_count fs args (hist2d_run_pairs args)
  constructor
  · intro hempty
    have h0 : (hist2d_gather fs args (hist2d_run_pairs args)).1 = [] := hh.trans hempty
    simp [hist2d_main, h0]
  · intro hne
    have h1 : (hist2d_gather fs args (hist2d_run_pairs args)).1 ≠ [] := by
      rw [hh]; exact hne
    cases hg : (hist2d_gather fs args (hist2d_run_pairs args)).1 with
    | nil => exact absurd hg h1
    | cons hd tl =>
      refine ⟨?_, ?_, ?_⟩ <;>
        simp [hist2d_main, hg, create_2d_histogram, ← hw, hg]

/-- Witness for C8: with one loadable and one missing input, the grid
builder exits 0, saves one file, and warns once. -/
theorem claim_C8_witness :
    (hist2d_main c7_fs ⟨"EventCutFlow", 1, 2, "1mm,9mm", "lightDecay", "e", "o", true⟩).exitCode = 0 ∧
    (hist2d_main c7_fs ⟨"EventCutFlow", 1, 2, "1mm,9mm", "lightDecay", "e", "o", true⟩).outputs.length = 1 ∧
    (hist2d_main c7_fs ⟨"EventCutFlow", 1, 2, "1mm,9mm", "lightDecay", "e", "o", true⟩).messages.length = 1 := by
  have hne : (hist2d_run_pairs ⟨"EventCutFlow", 1, 2, "1mm,9mm", "lightDecay", "e", "o", true⟩).filterMap
      (fun p => hist2d_load_attempt c7_fs ⟨"EventCutFlow", 1, 2, "1mm,9mm", "lightDecay", "e", "o", true⟩ p.1 p.2) ≠ [] := by
    intro h
    have hl : ((hist2d_run_pairs ⟨"EventCutFlow", 1, 2, "1mm,9mm", "lightDecay", "e", "o", true⟩).filterMap
      (fun p => hist2d_load_attempt c7_fs ⟨"EventCutFlow", 1, 2, "1mm,9mm", "lightDecay", "e", "o", true⟩ p.1 p.2)).length = 1 := rfl
    rw [h] at hl
    exact Nat.noConfusion hl
  have hmain := (claim_C8_grid_main c7_fs ⟨"EventCutFlow", 1, 2, "1mm,9mm", "lightDecay", "e", "o", true⟩).2 hne
  refine ⟨hmain.1, hmain.2.1, ?_⟩
  rw [hmain.2.2]
  rfl

/-- Claim C10: with the decay-channel selector "both", the rows of the
grid are all successfully loaded lightDecay histograms first (in ctau-list
order) followed by all successfully loaded heavyDecay histograms (in
ctau-list order), never interleaved. -/
theorem claim_C10_both_order (fs : FileSystem) (args : Hist2DArgs)
    (hboth : pyLower args.decay_types = "both") :
    (hist2d_gather fs args (hist2d_run_pairs args)).1
      = (parse_ctau_list args.ctaus).filterMap
          (fun ctau => hist2d_load_attempt fs args "lightDecay" ctau)
        ++ (parse_ctau_list args.ctaus).filterMap
          (fun ctau => hist2d_load_attempt fs args "heavyDecay" ctau) := by
  rw [hist2d_gather_hists fs args (hist2d_run_pairs args)]
  unfold hist2d_run_pairs hist2d_decay_types
  rw [if_pos (show (pyLower args.decay_types == "both") = true by rw [hboth]; rfl)]
  simp only [List.flatMap_cons, List.flatMap_nil, List.filterMap_append, List.filterMap_map,
    List.append_nil]
  rfl

/-- File-system state for the "both" run: a lightDecay file for ctau 1mm
and a heavyDecay file for ctau 9mm. -/
def c10_fs : FileSystem := ⟨[
  (ntuples_dir ++ "/gluino1_chi102_1mm_lightDecay_e.root", c7_file),
  (ntuples_dir ++ "/gluino1_chi102_9mm_heavyDecay_e.root", c7_file)]⟩

def c10_args : Hist2DArgs := ⟨"EventCutFlow", 1, 2, "1mm,9mm", "Both", "e", "o", true⟩

/-- Witness for C10: on `c10_fs` the gathered rows are exactly the
lightDecay successes followed by the heavyDecay successes, two in total. -/
theorem claim_C10_witness :
    (hist2d_gather c10_fs c10_args (hist2d_run_pairs c10_args)).1
      = (parse_ctau_list c10_args.ctaus).filterMap
          (fun ctau => hist2d_load_attempt c10_fs c10_args "lightDecay" ctau)
        ++ (parse_ctau_list c10_args.ctaus).filterMap
          (fun ctau => hist2d_load_attempt c10_fs c10_args "heavyDecay" ctau) ∧
    (hist2d_gather c10_fs c10_args (hist2d_run_pairs c10_args)).1.length = 2 := by
  exact ⟨claim_C10_both_order c10_fs c10_args rfl, rfl⟩

/-- Claim C9: both utilities construct the input filename as
`gluino<mass>_chi10<otherMass>_<decayLength><unit>_<channel>Decay_<era>.root`,
and their two construct_filename functions agree on every input. -/
theorem claim_C9_filenames (gluino_mass neutralino_mass : ℤ)
    (decay_length unit channel era : String) :
    (∀ ctau decay_type,
      ratio_construct_filename gluino_mass neutralino_mass ctau decay_type era
        = hist2d_construct_filename gluino_mass neutralino_mass ctau decay_type era) ∧
    ratio_construct_filename gluino_mass neutralino_mass (decay_length ++ unit)
        (channel ++ "Decay") era
      = "gluino" ++ toString gluino_mass ++ "_chi10" ++ toString neutralino_mass ++ "_"
          ++ decay_length ++ unit ++ "_" ++ channel ++ "Decay" ++ "_" ++ era ++ ".root" := by
  constructor
  · intro _ _
    rfl
  · unfold ratio_construct_filename
    simp [String.append_assoc]
